import Mathlib

/-!
FireMesh adapter: `dispatch` and `broadcastCE`.

A shallow embedding of `firemesh/pkg/adapter/adapter.go`.

The adapter receives a CloudEvent, wraps it in a FireFly broadcast message,
serialises that message and POSTs it to the FireFly node. The Go function is
effectful; here every call that leaves the package (`json.Marshal`,
`http.NewRequest`, `client.Do`, `ioutil.ReadAll`, the logger, the replier) is
recorded in an explicit list of `Call`s, and the answers of the outside world
are read from an `Env`.
-/

namespace firemesh

/-! ## Go values -/

/-- A Go slice: `none` is the `nil` slice, `some xs` a non-nil slice. -/
abbrev Slice (α : Type) := Option (List α)

/-- Go `len(s)`: the nil slice has length 0. -/
def Slice.len {α : Type} : Slice α → Nat
  | none => 0
  | some xs => xs.length

/-- Go `append(s, x)`: the result is never nil. -/
def Slice.append {α : Type} : Slice α → α → Slice α
  | none, x => some [x]
  | some xs, x => some (xs ++ [x])

/-- A Go `error` value (non-nil). -/
structure GoError where
  msg : String
deriving DecidableEq, Repr

/-- The part of `cloudevents.Event` the adapter reads. `Data()` returns the
encoded payload as `[]byte`; bytes are naturals below 256. -/
structure Event where
  Source : String
  EventType : String
  Data : Slice Nat
deriving DecidableEq, Repr

/-- The `cloudevents.Result` values. -/
inductive Result where
  | ResultACK
  | ResultNACK
  | Other (err : GoError)
deriving DecidableEq, Repr

/-! ## Types of the package -/

/-- `BroadcastMessageData`: `Value` is an `interface{}`; the adapter stores the
`[]byte` returned by `ev.Data()` in it. -/
structure BroadcastMessageData where
  Value : Slice Nat
deriving DecidableEq, Repr

structure BroadcastMessageHeader where
  Tag : String
  Topics : Slice String
deriving DecidableEq, Repr

structure BroadcastMessage where
  Header : BroadcastMessageHeader
  Data : Slice BroadcastMessageData
deriving DecidableEq, Repr

/-! ## net/http -/

/-- A `http.Header`: keys with their values, in insertion order. -/
abbrev Header := List (String × List String)

/-- The bytes `textproto` accepts in a header field name (RFC 7230 token). -/
def validHeaderFieldByte (c : Char) : Bool :=
  c.isAlphanum || [33, 35, 36, 37, 38, 39, 42, 43, 45, 46, 94, 95, 96, 124, 126].contains c.toNat

/-- The loop of `textproto.canonicalMIMEHeaderKey`: upper-case the first
letter and every letter after a hyphen, lower-case the others. -/
def canonicalLoop : Bool → List Char → List Char
  | _, [] => []
  | upper, c :: cs =>
    let c1 := if upper && c.isLower then c.toUpper
              else if !upper && c.isUpper then c.toLower else c
    c1 :: canonicalLoop (c == '-') cs

/-- `textproto.CanonicalMIMEHeaderKey`: a key with a byte outside the token
set is returned unchanged. -/
def CanonicalMIMEHeaderKey (s : String) : String :=
  if s.toList.all validHeaderFieldByte then String.mk (canonicalLoop true s.toList) else s

/-- Append `value` to the values stored under an already canonical `key`. -/
def Header.addCanonical (key value : String) : Header → Header
  | [] => [(key, [value])]
  | (k, vs) :: rest =>
    if k = key then (k, vs ++ [value]) :: rest else (k, vs) :: Header.addCanonical key value rest

/-- `http.Header.Add`. -/
def Header.Add (h : Header) (key value : String) : Header :=
  Header.addCanonical (CanonicalMIMEHeaderKey key) value h

/-- `http.Header.Values`: all values stored under the canonical form of `key`. -/
def Header.Values (h : Header) (key : String) : List String :=
  match h.lookup (CanonicalMIMEHeaderKey key) with
  | some vs => vs
  | none => []

/-- A `http.Request` as built by `http.NewRequest`: method, the parsed URL
(as `URL.String()` renders it), header and the body text. -/
structure Request where
  Method : String
  URL : String
  Header : Header
  Body : String
deriving DecidableEq, Repr

/-- A `http.Response`: the status code, and what reading `Body` to the end
yields (`ioutil.ReadAll` returns the bytes read and the error, if any). -/
structure Response where
  StatusCode : Nat
  Body : List Nat
  BodyErr : Option GoError
deriving DecidableEq, Repr

/-- The replier of package `targetce`, not part of this file: its `Error`
method takes the inbound event, an error code, the cause and the details. -/
structure Replier where
  Error : Event → String → GoError → String → Option Event × Result

/-- The world outside the package: the answers of `json.Marshal`, of the
validation done by `http.NewRequest` (`none`: method and URL accepted), of
`url.Parse` on an accepted URL text (the URL the request then stores, as
text: scheme in lower case, empty port removed, path escaped anew), of
`http.Client.Do`, and the constant `targetce.ErrorCodeAdapterProcess`.
`broadcastCE` checks the error of each of these calls, so each may fail here;
`jsonMarshal` below is what Go's encoder answers on a `BroadcastMessage`. -/
structure Env where
  Marshal : BroadcastMessage → Except GoError String
  NewRequestErr : String → String → Option GoError
  ParseURL : String → String
  Do : Request → Except GoError Response
  ErrorCodeAdapterProcess : String

/-- `http.NewRequest`: an empty method stands for GET; on success the request
carries the method and the body it was given, the URL that `url.Parse` returns
for the text it was given, and an empty header. -/
def NewRequest (env : Env) (method url body : String) : Except GoError Request :=
  let method := if method = "" then "GET" else method
  match env.NewRequestErr method url with
  | some err => Except.error err
  | none =>
    Except.ok { Method := method, URL := env.ParseURL url, Header := [], Body := body }

/-- `ioutil.ReadAll(res.Body)`. -/
def ReadAll (res : Response) : List Nat × Option GoError :=
  (res.Body, res.BodyErr)

/-- The calls that leave the package, in the order they are made. -/
inductive Call where
  | Marshal (bm : BroadcastMessage)
  | NewRequest (method url body : String)
  | Do (req : Request)
  | ReadAll (res : Response)
  | Close (res : Response)
  | Infof (template : String) (body : List Nat)
  | ReplierError (event : Event) (code : String) (err : GoError) (details : String)
deriving DecidableEq, Repr

def Call.isNewRequest : Call → Bool
  | Call.NewRequest _ _ _ => true
  | _ => false

def Call.isDo : Call → Bool
  | Call.Do _ => true
  | _ => false

def Call.isReplierError : Call → Bool
  | Call.ReplierError _ _ _ _ => true
  | _ => false

/-! ## encoding/json and encoding/base64 -/

/-- The alphabet of `base64.StdEncoding`. -/
def encodeStd : List Char :=
  "ABCDEFGHIJKLMNOPQRSTUVWXYZabcdefghijklmnopqrstuvwxyz0123456789+/".toList

/-- One output character of the base64 encoding: the digit of value `n % 64`. -/
def base64Digit (n : Nat) : Char :=
  encodeStd.getD (n % 64) 'A'

/-- `base64.StdEncoding.EncodeToString`: three bytes give four digits, a
remainder of one or two bytes is padded with `=`. -/
def base64Encode : List Nat → List Char
  | [] => []
  | [a] =>
    let v := (a % 256) * 65536
    [base64Digit (v / 262144), base64Digit (v / 4096), '=', '=']
  | [a, b] =>
    let v := (a % 256) * 65536 + (b % 256) * 256
    [base64Digit (v / 262144), base64Digit (v / 4096), base64Digit (v / 64), '=']
  | a :: b :: c :: rest =>
    let v := (a % 256) * 65536 + (b % 256) * 256 + c % 256
    base64Digit (v / 262144) :: base64Digit (v / 4096) :: base64Digit (v / 64) ::
      base64Digit v :: base64Encode rest

/-- The lower-case hexadecimal digits used by `encoding/json`. -/
def hexDigit (n : Nat) : Char :=
  "0123456789abcdef".toList.getD (n % 16) '0'

/-- One character of a Go string as `encoding/json` (Go 1.17 to 1.21, the
releases of the time) writes it inside a JSON string with HTML escaping on
(the default of `json.Marshal`): quote and
backslash are escaped with a backslash, newline, carriage return and tab get
their short form, the other control characters and `<`, `>`, `&` become
`\u00XX`, and U+2028 and U+2029 are written as six-character escapes too. -/
def jsonEscapeChar (c : Char) : List Char :=
  if c = '"' then ['\\', '"']
  else if c = '\\' then ['\\', '\\']
  else if c = '\n' then ['\\', 'n']
  else if c = '\r' then ['\\', 'r']
  else if c = '\t' then ['\\', 't']
  else if c.toNat < 32 || c = '<' || c = '>' || c = '&' then
    ['\\', 'u', '0', '0', hexDigit (c.toNat / 16), hexDigit c.toNat]
  else if c.toNat = 8232 then "\\u2028".toList
  else if c.toNat = 8233 then "\\u2029".toList
  else [c]

/-- A Go `string` as a JSON string. -/
def jsonString (s : String) : String :=
  String.mk ('"' :: (s.toList.flatMap jsonEscapeChar ++ ['"']))

/-- A Go `[]string`: the nil slice is `null`, any other a JSON array. -/
def jsonStringSlice : Slice String → String
  | none => "null"
  | some xs => "[" ++ String.intercalate "," (xs.map jsonString) ++ "]"

/-- A `[]byte` held in an `interface{}`: the nil slice is `null`, any
other a JSON string of its base64 encoding. -/
def jsonBytes : Slice Nat → String
  | none => "null"
  | some bs => String.mk ('"' :: (base64Encode bs ++ ['"']))

/-- `BroadcastMessageData` as JSON: one member, `value`. -/
def jsonMessageData (d : BroadcastMessageData) : String :=
  "\x7b\"value\":" ++ jsonBytes d.Value ++ "\x7d"

/-- `BroadcastMessageHeader` as JSON: members `tag`, `topics` in field order. -/
def jsonMessageHeader (h : BroadcastMessageHeader) : String :=
  "\x7b\"tag\":" ++ jsonString h.Tag ++ ",\"topics\":" ++ jsonStringSlice h.Topics ++ "\x7d"

/-- A `[]BroadcastMessageData` as JSON. -/
def jsonMessageDataSlice : Slice BroadcastMessageData → String
  | none => "null"
  | some ds => "[" ++ String.intercalate "," (ds.map jsonMessageData) ++ "]"

/-- `json.Marshal` on a `BroadcastMessage`: members `header`, `data` in field
order. It has no failing case on this type. -/
def jsonMarshal (bm : BroadcastMessage) : String :=
  "\x7b\"header\":" ++ jsonMessageHeader bm.Header ++ ",\"data\":" ++
    jsonMessageDataSlice bm.Data ++ "\x7d"

/-- The bytes of an ASCII text, as `[]byte(s)` gives them. -/
def asciiBytes (s : String) : List Nat :=
  s.toList.map Char.toNat

/-! ## The adapter -/

/-- The `firemeshadapter` struct (client and logger act through `Env` and
the recorded calls). -/
structure firemeshadapter where
  ff : String
  topic : Slice String
  sink : String
  replier : Replier

/-- Lines 151-159 of `broadcastCE`: the topic selection and the composite
literal `bm`. -/
def envelope (a : firemeshadapter) (ev : Event) : BroadcastMessage :=
  let topics : Slice String :=
    if a.topic.len > 0 then Slice.append none ev.EventType else a.topic
  { Data := some [{ Value := ev.Data }],
    Header := { Tag := ev.Source, Topics := topics } }

/-- `(*firemeshadapter).broadcastCE`: returns the Go `error` (`none` is `nil`)
and the calls made. The deferred `res.Body.Close()` runs last. -/
def broadcastCE (env : Env) (a : firemeshadapter) (ev : Event) : Option GoError × List Call :=
  let url := a.ff ++ "/api/v1/namespaces/default/messages/broadcast"
  let method := "POST"
  let bm := envelope a ev
  match env.Marshal bm with
  | Except.error err => (some err, [Call.Marshal bm])
  | Except.ok b =>
    match NewRequest env method url b with
    | Except.error err => (some err, [Call.Marshal bm, Call.NewRequest method url b])
    | Except.ok req0 =>
      let req1 := { req0 with Header := req0.Header.Add "accept" "application/json" }
      let req := { req1 with Header := req1.Header.Add "content-type" "application/json" }
      match env.Do req with
      | Except.error err =>
        (some err, [Call.Marshal bm, Call.NewRequest method url b, Call.Do req])
      | Except.ok res =>
        match ReadAll res with
        | (_, some err) =>
          (some err, [Call.Marshal bm, Call.NewRequest method url b, Call.Do req,
            Call.ReadAll res, Call.Close res])
        | (body, none) =>
          (none, [Call.Marshal bm, Call.NewRequest method url b, Call.Do req,
            Call.ReadAll res, Call.Infof "broadcasted ce" body, Call.Close res])

/-- `(*firemeshadapter).dispatch`: the reply event with its result, and the
calls made. The context argument is not used by the Go code. -/
def dispatch (env : Env) (a : firemeshadapter) (event : Event) :
    (Option Event × Result) × List Call :=
  match broadcastCE env a event with
  | (some err, calls) =>
    (a.replier.Error event env.ErrorCodeAdapterProcess err "failed to broadcast event",
      calls ++ [Call.ReplierError event env.ErrorCodeAdapterProcess err
        "failed to broadcast event"])
  | (none, calls) => ((some event, Result.ResultACK), calls)

/-- The request `broadcastCE` hands to `client.Do` when the envelope was
serialised to `b`: lines 147, 148 and 166 to 172 evaluated. Its URL is what
`url.Parse` makes of the text of line 147. -/
def postRequest (env : Env) (a : firemeshadapter) (b : String) : Request :=
  { Method := "POST",
    URL := env.ParseURL (a.ff ++ "/api/v1/namespaces/default/messages/broadcast"),
    Header := [("Accept", ["application/json"]), ("Content-Type", ["application/json"])],
    Body := b }

/-! ## Sample inputs -/

/-- A replier that reports the cause as the result and sends no event. -/
def resultReplier : Replier :=
  { Error := fun _ _ err _ => (none, Result.Other err) }

/-- A replier that answers with an error event and acknowledges, so that
the error event is delivered to the sender. -/
def payloadReplier : Replier :=
  { Error := fun event _ err _ =>
      (some { Source := event.Source, EventType := "io.triggermesh.firemesh.error",
              Data := some (asciiBytes err.msg) }, Result.ResultACK) }

/-- The event of the scenarios: source `svc-a`, type `order.created`, and the
seven payload bytes of the JSON text with member `x` equal to 1. -/
def scenarioEvent : Event :=
  { Source := "svc-a", EventType := "order.created",
    Data := some (asciiBytes "\x7b\"x\":1\x7d") }

/-- An adapter for the node at `http://ff:5000` with the given topic list. -/
def scenarioAdapter (topic : Slice String) (replier : Replier) : firemeshadapter :=
  { ff := "http://ff:5000", topic := topic, sink := "", replier := replier }

/-- The scenario adapter with the scheme of its base URL in capitals, which
is as valid a value of `FF`. -/
def upperCaseAdapter : firemeshadapter :=
  { ff := "HTTP://ff:5000", topic := none, sink := "", replier := resultReplier }

/-- The scheme of a URL text in lower case: the characters before the first
colon. -/
def lowerScheme : List Char → List Char
  | [] => []
  | c :: cs => if c = ':' then c :: cs else c.toLower :: lowerScheme cs

/-- What `url.Parse` and `URL.String()` make of an absolute URL with a plain
host, a port and an unescaped path, as the base URLs of the sample adapters
are: the scheme in lower case, the rest as it is. -/
def sampleParse (url : String) : String :=
  String.mk (lowerScheme url.toList)

/-- A world in which everything works: Go's encoder, an accepted URL, and a
node that answers with the given status and an empty JSON object. -/
def nodeAnswers (status : Nat) : Env :=
  { Marshal := fun bm => Except.ok (jsonMarshal bm),
    NewRequestErr := fun _ _ => none,
    ParseURL := sampleParse,
    Do := fun _ => Except.ok { StatusCode := status, Body := [123, 125], BodyErr := none },
    ErrorCodeAdapterProcess := "adapter-process" }

/-- A world in which the node cannot be reached. -/
def nodeDown : Env :=
  { nodeAnswers 0 with Do := fun _ => Except.error { msg := "connection refused" } }

/-- A world in which `http.NewRequest` rejects the URL. -/
def urlRejected : Env :=
  { nodeAnswers 0 with NewRequestErr := fun _ _ => some { msg := "invalid URL" } }

/-- A world in which the serialiser fails. -/
def marshalFails : Env :=
  { nodeAnswers 0 with Marshal := fun _ => Except.error { msg := "unsupported value" } }

/-- A world in which the response arrives but its body breaks off. -/
def bodyBreaks : Env :=
  { nodeAnswers 0 with
    Do := fun _ => Except.ok { StatusCode := 200, Body := [123],
                               BodyErr := some { msg := "unexpected EOF" } } }

/-! ## Shared lemmas: the five ways through `broadcastCE` -/

theorem header_after_adds :
    Header.Add (Header.Add [] "accept" "application/json") "content-type" "application/json"
      = [("Accept", ["application/json"]), ("Content-Type", ["application/json"])] := by
  decide

theorem broadcastCE_first_call (env : Env) (a : firemeshadapter) (ev : Event) :
    (broadcastCE env a ev).2.head? = some (Call.Marshal (envelope a ev)) := by
  unfold broadcastCE
  simp only []
  split
  · rfl
  · split
    · rfl
    · split
      · rfl
      · split <;> rfl

theorem broadcastCE_marshal_error (env : Env) (a : firemeshadapter) (ev : Event) (e : GoError)
    (hM : env.Marshal (envelope a ev) = Except.error e) :
    broadcastCE env a ev = (some e, [Call.Marshal (envelope a ev)]) := by
  unfold broadcastCE
  simp [hM]

theorem broadcastCE_request_error (env : Env) (a : firemeshadapter) (ev : Event)
    (b : String) (e : GoError)
    (hM : env.Marshal (envelope a ev) = Except.ok b)
    (hN : env.NewRequestErr "POST" (a.ff ++ "/api/v1/namespaces/default/messages/broadcast")
      = some e) :
    broadcastCE env a ev = (some e, [Call.Marshal (envelope a ev),
      Call.NewRequest "POST" (a.ff ++ "/api/v1/namespaces/default/messages/broadcast") b]) := by
  unfold broadcastCE
  simp [hM, NewRequest, hN]

theorem broadcastCE_send_error (env : Env) (a : firemeshadapter) (ev : Event)
    (b : String) (e : GoError)
    (hM : env.Marshal (envelope a ev) = Except.ok b)
    (hN : env.NewRequestErr "POST" (a.ff ++ "/api/v1/namespaces/default/messages/broadcast")
      = none)
    (hD : env.Do (postRequest env a b) = Except.error e) :
    broadcastCE env a ev = (some e, [Call.Marshal (envelope a ev),
      Call.NewRequest "POST" (a.ff ++ "/api/v1/namespaces/default/messages/broadcast") b,
      Call.Do (postRequest env a b)]) := by
  unfold postRequest at hD
  unfold broadcastCE postRequest
  simp [hM, NewRequest, hN, header_after_adds, hD]

theorem broadcastCE_read_error (env : Env) (a : firemeshadapter) (ev : Event)
    (b : String) (res : Response) (e : GoError)
    (hM : env.Marshal (envelope a ev) = Except.ok b)
    (hN : env.NewRequestErr "POST" (a.ff ++ "/api/v1/namespaces/default/messages/broadcast")
      = none)
    (hD : env.Do (postRequest env a b) = Except.ok res)
    (hR : res.BodyErr = some e) :
    broadcastCE env a ev = (some e, [Call.Marshal (envelope a ev),
      Call.NewRequest "POST" (a.ff ++ "/api/v1/namespaces/default/messages/broadcast") b,
      Call.Do (postRequest env a b), Call.ReadAll res, Call.Close res]) := by
  unfold postRequest at hD
  unfold broadcastCE postRequest
  simp [hM, NewRequest, hN, header_after_adds, hD, ReadAll, hR]

theorem broadcastCE_delivered (env : Env) (a : firemeshadapter) (ev : Event)
    (b : String) (res : Response)
    (hM : env.Marshal (envelope a ev) = Except.ok b)
    (hN : env.NewRequestErr "POST" (a.ff ++ "/api/v1/namespaces/default/messages/broadcast")
      = none)
    (hD : env.Do (postRequest env a b) = Except.ok res)
    (hR : res.BodyErr = none) :
    broadcastCE env a ev = (none, [Call.Marshal (envelope a ev),
      Call.NewRequest "POST" (a.ff ++ "/api/v1/namespaces/default/messages/broadcast") b,
      Call.Do (postRequest env a b), Call.ReadAll res,
      Call.Infof "broadcasted ce" res.Body, Call.Close res]) := by
  unfold postRequest at hD
  unfold broadcastCE postRequest
  simp [hM, NewRequest, hN, header_after_adds, hD, ReadAll, hR]

theorem dispatch_of_error (env : Env) (a : firemeshadapter) (ev : Event) (e : GoError)
    (calls : List Call) (h : broadcastCE env a ev = (some e, calls)) :
    dispatch env a ev =
      (a.replier.Error ev env.ErrorCodeAdapterProcess e "failed to broadcast event",
        calls ++ [Call.ReplierError ev env.ErrorCodeAdapterProcess e
          "failed to broadcast event"]) := by
  unfold dispatch
  rw [h]

theorem dispatch_of_nil (env : Env) (a : firemeshadapter) (ev : Event)
    (calls : List Call) (h : broadcastCE env a ev = (none, calls)) :
    dispatch env a ev = ((some ev, Result.ResultACK), calls) := by
  unfold dispatch
  rw [h]

theorem broadcastCE_no_replier_call (env : Env) (a : firemeshadapter) (ev : Event) :
    ∀ c ∈ (broadcastCE env a ev).2, c.isReplierError = false := by
  unfold broadcastCE
  simp only []
  split
  · simp [Call.isReplierError]
  · split
    · simp [Call.isReplierError]
    · split
      · simp [Call.isReplierError]
      · split <;> simp [Call.isReplierError]

/-- Every run of `broadcastCE` is one of the five paths. -/
theorem broadcastCE_cases (env : Env) (a : firemeshadapter) (ev : Event) :
    (∃ e, env.Marshal (envelope a ev) = Except.error e ∧
      broadcastCE env a ev = (some e, [Call.Marshal (envelope a ev)])) ∨
    (∃ b e, env.Marshal (envelope a ev) = Except.ok b ∧
      env.NewRequestErr "POST" (a.ff ++ "/api/v1/namespaces/default/messages/broadcast")
        = some e ∧
      broadcastCE env a ev = (some e, [Call.Marshal (envelope a ev),
        Call.NewRequest "POST" (a.ff ++ "/api/v1/namespaces/default/messages/broadcast") b])) ∨
    (∃ b e, env.Marshal (envelope a ev) = Except.ok b ∧
      env.NewRequestErr "POST" (a.ff ++ "/api/v1/namespaces/default/messages/broadcast")
        = none ∧
      env.Do (postRequest env a b) = Except.error e ∧
      broadcastCE env a ev = (some e, [Call.Marshal (envelope a ev),
        Call.NewRequest "POST" (a.ff ++ "/api/v1/namespaces/default/messages/broadcast") b,
        Call.Do (postRequest env a b)])) ∨
    (∃ b res e, env.Marshal (envelope a ev) = Except.ok b ∧
      env.NewRequestErr "POST" (a.ff ++ "/api/v1/namespaces/default/messages/broadcast")
        = none ∧
      env.Do (postRequest env a b) = Except.ok res ∧ res.BodyErr = some e ∧
      broadcastCE env a ev = (some e, [Call.Marshal (envelope a ev),
        Call.NewRequest "POST" (a.ff ++ "/api/v1/namespaces/default/messages/broadcast") b,
        Call.Do (postRequest env a b), Call.ReadAll res, Call.Close res])) ∨
    (∃ b res, env.Marshal (envelope a ev) = Except.ok b ∧
      env.NewRequestErr "POST" (a.ff ++ "/api/v1/namespaces/default/messages/broadcast")
        = none ∧
      env.Do (postRequest env a b) = Except.ok res ∧ res.BodyErr = none ∧
      broadcastCE env a ev = (none, [Call.Marshal (envelope a ev),
        Call.NewRequest "POST" (a.ff ++ "/api/v1/namespaces/default/messages/broadcast") b,
        Call.Do (postRequest env a b), Call.ReadAll res,
        Call.Infof "broadcasted ce" res.Body, Call.Close res])) := by
  cases hM : env.Marshal (envelope a ev) with
  | error e => exact Or.inl ⟨e, rfl, broadcastCE_marshal_error env a ev e hM⟩
  | ok b =>
    cases hN : env.NewRequestErr "POST"
        (a.ff ++ "/api/v1/namespaces/default/messages/broadcast") with
    | some e =>
      exact Or.inr (Or.inl ⟨b, e, rfl, rfl, broadcastCE_request_error env a ev b e hM hN⟩)
    | none =>
      cases hD : env.Do (postRequest env a b) with
      | error e =>
        exact Or.inr (Or.inr (Or.inl
          ⟨b, e, rfl, rfl, hD, broadcastCE_send_error env a ev b e hM hN hD⟩))
      | ok res =>
        cases hR : res.BodyErr with
        | some e =>
          exact Or.inr (Or.inr (Or.inr (Or.inl
            ⟨b, res, e, rfl, rfl, hD, hR, broadcastCE_read_error env a ev b res e hM hN hD hR⟩)))
        | none =>
          exact Or.inr (Or.inr (Or.inr (Or.inr
            ⟨b, res, rfl, rfl, hD, hR, broadcastCE_delivered env a ev b res hM hN hD hR⟩)))

/-- Once the envelope is serialised and the request built, exactly one request
is handed to `client.Do`, whatever happens next. -/
theorem broadcastCE_sends (env : Env) (a : firemeshadapter) (ev : Event) (b : String)
    (hM : env.Marshal (envelope a ev) = Except.ok b)
    (hN : env.NewRequestErr "POST" (a.ff ++ "/api/v1/namespaces/default/messages/broadcast")
      = none) :
    (broadcastCE env a ev).2.filter Call.isDo = [Call.Do (postRequest env a b)] := by
  cases hD : env.Do (postRequest env a b) with
  | error e =>
    rw [broadcastCE_send_error env a ev b e hM hN hD]
    simp [Call.isDo]
  | ok res =>
    cases hR : res.BodyErr with
    | some e =>
      rw [broadcastCE_read_error env a ev b res e hM hN hD hR]
      simp [Call.isDo]
    | none =>
      rw [broadcastCE_delivered env a ev b res hM hN hD hR]
      simp [Call.isDo]

/-- A request handed to `client.Do` is the POST request whose body is the
serialised envelope. -/
theorem broadcastCE_sent_request (env : Env) (a : firemeshadapter) (ev : Event)
    (req : Request) (h : Call.Do req ∈ (broadcastCE env a ev).2) :
    ∃ b, env.Marshal (envelope a ev) = Except.ok b ∧ req = postRequest env a b := by
  rcases broadcastCE_cases env a ev with
    ⟨e, _, hb⟩ | ⟨b, e, _, _, hb⟩ | ⟨b, e, hM, _, _, hb⟩ | ⟨b, res, e, hM, _, _, _, hb⟩ |
    ⟨b, res, hM, _, _, _, hb⟩
  · rw [hb] at h
    simp at h
  · rw [hb] at h
    simp at h
  · rw [hb] at h
    simp at h
    exact ⟨b, hM, h⟩
  · rw [hb] at h
    simp at h
    exact ⟨b, hM, h⟩
  · rw [hb] at h
    simp at h
    exact ⟨b, hM, h⟩

/-! ## The envelope -/

/-- C1: the envelope `broadcastCE` serialises has topics `[ev.Type()]` when
the configured topic list is non-empty, and the configured list itself, which
is empty, when that list is empty. -/
theorem broadcastCE_topic_selection (env : Env) (a : firemeshadapter) (ev : Event) :
    (broadcastCE env a ev).2.head? = some (Call.Marshal (envelope a ev)) ∧
    (0 < a.topic.len → (envelope a ev).Header.Topics = some [ev.EventType]) ∧
    (a.topic.len = 0 →
      (envelope a ev).Header.Topics = a.topic ∧ (envelope a ev).Header.Topics.len = 0) := by
  refine ⟨broadcastCE_first_call env a ev, ?_, ?_⟩
  · intro h
    simp [envelope, h, Slice.append]
  · intro h
    simp [envelope, h]

/-- C1 at the scenario: configured topics `["orders"]` and event type
`order.created` give topics `["order.created"]`; and an empty configured list
is passed on as it is. -/
theorem broadcastCE_topic_selection_witness :
    (0 < (scenarioAdapter (some ["orders"]) resultReplier).topic.len ∧
      (envelope (scenarioAdapter (some ["orders"]) resultReplier) scenarioEvent).Header.Topics
        = some ["order.created"]) ∧
    ((scenarioAdapter (some []) resultReplier).topic.len = 0 ∧
      (envelope (scenarioAdapter (some []) resultReplier) scenarioEvent).Header.Topics
        = some [] ∧
      (envelope (scenarioAdapter (some []) resultReplier) scenarioEvent).Header.Topics.len
        = 0) :=
  ⟨⟨by decide,
    (broadcastCE_topic_selection (nodeAnswers 200)
      (scenarioAdapter (some ["orders"]) resultReplier) scenarioEvent).2.1 (by decide)⟩,
   ⟨by decide,
    (broadcastCE_topic_selection (nodeAnswers 200)
      (scenarioAdapter (some []) resultReplier) scenarioEvent).2.2 (by decide)⟩⟩

/-- C2: the envelope `broadcastCE` serialises has `header.tag` equal to the
source of the inbound event, whatever the configuration. -/
theorem broadcastCE_tag_is_source (env : Env) (a : firemeshadapter) (ev : Event) :
    (broadcastCE env a ev).2.head? = some (Call.Marshal (envelope a ev)) ∧
    (envelope a ev).Header.Tag = ev.Source :=
  ⟨broadcastCE_first_call env a ev, rfl⟩

/-- C3: the envelope `broadcastCE` serialises has a data sequence of length
one whose only element carries the event payload unchanged in `value`. -/
theorem broadcastCE_data_is_payload (env : Env) (a : firemeshadapter) (ev : Event) :
    (broadcastCE env a ev).2.head? = some (Call.Marshal (envelope a ev)) ∧
    (envelope a ev).Data.len = 1 ∧
    (envelope a ev).Data = some [{ Value := ev.Data }] ∧
    ∀ ds, (envelope a ev).Data = some ds → ∀ d ∈ ds, d.Value = ev.Data := by
  refine ⟨broadcastCE_first_call env a ev, rfl, rfl, ?_⟩
  intro ds h d hd
  have h2 : ds = [{ Value := ev.Data }] := by
    simpa [envelope] using h.symm
  subst h2
  have h3 : d = { Value := ev.Data } := by simpa using hd
  rw [h3]

/-- C7, evaluated on the code: with no configured topic (the nil list) and
an event of type `order.created`, the envelope `broadcastCE` serialises has an
empty topic list although the event carries a type. -/
theorem broadcastCE_topics_empty_with_typed_event :
    scenarioEvent.EventType ≠ "" ∧
    (broadcastCE (nodeAnswers 200) (scenarioAdapter none resultReplier) scenarioEvent).2.head?
      = some (Call.Marshal
          (envelope (scenarioAdapter none resultReplier) scenarioEvent)) ∧
    (envelope (scenarioAdapter none resultReplier) scenarioEvent).Header.Topics = none ∧
    (envelope (scenarioAdapter none resultReplier) scenarioEvent).Header.Topics.len = 0 := by
  refine ⟨by decide, broadcastCE_first_call _ _ _, by decide, by decide⟩

/-! ## The reply -/

/-- C4: when `broadcastCE` returns no error, `dispatch` returns the inbound
event itself with `ResultACK`, and the replier's `Error` is not called. -/
theorem dispatch_ack_on_success (env : Env) (a : firemeshadapter) (ev : Event)
    (h : (broadcastCE env a ev).1 = none) :
    (dispatch env a ev).1 = (some ev, Result.ResultACK) ∧
    (dispatch env a ev).2 = (broadcastCE env a ev).2 ∧
    ∀ c ∈ (dispatch env a ev).2, c.isReplierError = false := by
  have hb : broadcastCE env a ev = (none, (broadcastCE env a ev).2) := by
    rw [← h]
  have hd := dispatch_of_nil env a ev _ hb
  refine ⟨by rw [hd], by rw [hd], ?_⟩
  rw [hd]
  exact broadcastCE_no_replier_call env a ev

/-- C4 at the scenario: the node answers 200, the event comes back with ACK. -/
theorem dispatch_ack_on_success_witness :
    (broadcastCE (nodeAnswers 200) (scenarioAdapter none resultReplier) scenarioEvent).1
      = none ∧
    (dispatch (nodeAnswers 200) (scenarioAdapter none resultReplier) scenarioEvent).1
      = (some scenarioEvent, Result.ResultACK) :=
  ⟨by decide,
   (dispatch_ack_on_success (nodeAnswers 200) (scenarioAdapter none resultReplier)
      scenarioEvent (by decide)).1⟩

/-- C5 as stated fails: the send fails with "connection refused", the
replier answers with an error event and an acknowledgement, and that
acknowledgement is what `dispatch` returns. -/
theorem dispatch_failure_reply_can_ack :
    nodeDown.Do (postRequest nodeDown (scenarioAdapter none payloadReplier)
        (jsonMarshal (envelope (scenarioAdapter none payloadReplier) scenarioEvent)))
      = Except.error { msg := "connection refused" } ∧
    (broadcastCE nodeDown (scenarioAdapter none payloadReplier) scenarioEvent).1
      = some { msg := "connection refused" } ∧
    (dispatch nodeDown (scenarioAdapter none payloadReplier) scenarioEvent).1.2
      = Result.ResultACK :=
  ⟨rfl, by decide, by decide⟩

/-- C5, amended: when the envelope is serialised and then building the
request or sending it fails with `e`, `dispatch` returns exactly what the
replier's `Error` gives for the inbound event, `ErrorCodeAdapterProcess`, `e`
and "failed to broadcast event"; the replier is called once, with these
arguments, and the result is ACK only if the replier's reply says so. -/
theorem dispatch_error_before_response (env : Env) (a : firemeshadapter) (ev : Event)
    (b : String) (e : GoError)
    (hM : env.Marshal (envelope a ev) = Except.ok b)
    (hF : env.NewRequestErr "POST" (a.ff ++ "/api/v1/namespaces/default/messages/broadcast")
        = some e ∨
      (env.NewRequestErr "POST" (a.ff ++ "/api/v1/namespaces/default/messages/broadcast")
        = none ∧ env.Do (postRequest env a b) = Except.error e)) :
    (broadcastCE env a ev).1 = some e ∧
    (dispatch env a ev).1
      = a.replier.Error ev env.ErrorCodeAdapterProcess e "failed to broadcast event" ∧
    (dispatch env a ev).2.filter Call.isReplierError
      = [Call.ReplierError ev env.ErrorCodeAdapterProcess e "failed to broadcast event"] ∧
    ((dispatch env a ev).1.2 = Result.ResultACK ↔
      (a.replier.Error ev env.ErrorCodeAdapterProcess e "failed to broadcast event").2
        = Result.ResultACK) := by
  rcases hF with hN | ⟨hN, hD⟩
  · have hb := broadcastCE_request_error env a ev b e hM hN
    have hd := dispatch_of_error env a ev e _ hb
    rw [hb, hd]
    simp [Call.isReplierError]
  · have hb := broadcastCE_send_error env a ev b e hM hN hD
    have hd := dispatch_of_error env a ev e _ hb
    rw [hb, hd]
    simp [Call.isReplierError]

/-- C5, amended, at two inputs: a refused connection and a rejected URL, with
a replier that reports the cause as the result. -/
theorem dispatch_error_before_response_witness :
    (dispatch nodeDown (scenarioAdapter none resultReplier) scenarioEvent).1
      = (none, Result.Other { msg := "connection refused" }) ∧
    (dispatch urlRejected (scenarioAdapter none resultReplier) scenarioEvent).1
      = (none, Result.Other { msg := "invalid URL" }) :=
  ⟨(dispatch_error_before_response nodeDown (scenarioAdapter none resultReplier) scenarioEvent
      (jsonMarshal (envelope (scenarioAdapter none resultReplier) scenarioEvent))
      { msg := "connection refused" } rfl (Or.inr ⟨rfl, rfl⟩)).2.1,
   (dispatch_error_before_response urlRejected (scenarioAdapter none resultReplier)
      scenarioEvent
      (jsonMarshal (envelope (scenarioAdapter none resultReplier) scenarioEvent))
      { msg := "invalid URL" } rfl (Or.inl rfl)).2.1⟩

/-! ## The request -/

/-- C6 as stated fails: for the scenario event and an empty configured topic
list, nil or not, Go's encoder does not produce the body with `"topics":[]`
and the payload as a JSON object; the request sent carries the payload as a
base64 string, and `null` for the nil topic list. -/
theorem broadcastCE_scenario_body_differs :
    jsonMarshal (envelope (scenarioAdapter none resultReplier) scenarioEvent)
      ≠ "\x7b\"header\":\x7b\"tag\":\"svc-a\",\"topics\":[]\x7d,\"data\":[\x7b\"value\":\x7b\"x\":1\x7d\x7d]\x7d" ∧
    jsonMarshal (envelope (scenarioAdapter (some []) resultReplier) scenarioEvent)
      ≠ "\x7b\"header\":\x7b\"tag\":\"svc-a\",\"topics\":[]\x7d,\"data\":[\x7b\"value\":\x7b\"x\":1\x7d\x7d]\x7d" ∧
    (broadcastCE (nodeAnswers 200) (scenarioAdapter none resultReplier) scenarioEvent).2.filter
        Call.isDo
      = [Call.Do (postRequest (nodeAnswers 200) (scenarioAdapter none resultReplier)
          "\x7b\"header\":\x7b\"tag\":\"svc-a\",\"topics\":null\x7d,\"data\":[\x7b\"value\":\"eyJ4IjoxfQ==\"\x7d]\x7d")] ∧
    (broadcastCE (nodeAnswers 200) (scenarioAdapter (some []) resultReplier)
        scenarioEvent).2.filter Call.isDo
      = [Call.Do (postRequest (nodeAnswers 200) (scenarioAdapter (some []) resultReplier)
          "\x7b\"header\":\x7b\"tag\":\"svc-a\",\"topics\":[]\x7d,\"data\":[\x7b\"value\":\"eyJ4IjoxfQ==\"\x7d]\x7d")] := by
  refine ⟨by decide, by decide, by decide, by decide⟩

/-- C6, amended: for the scenario event, with Go's encoder and an accepted
URL, the body of the request is
`{"header":{"tag":"svc-a","topics":null},"data":[{"value":"eyJ4IjoxfQ=="}]}`
when the configured topic list is nil, and has `"topics":[]` instead when it is
an empty non-nil list; `value` is the base64 text of the payload bytes. -/
theorem broadcastCE_scenario_body (env : Env) (a : firemeshadapter)
    (hM : ∀ bm, env.Marshal bm = Except.ok (jsonMarshal bm))
    (hN : env.NewRequestErr "POST" (a.ff ++ "/api/v1/namespaces/default/messages/broadcast")
      = none) :
    (a.topic = none →
      (broadcastCE env a scenarioEvent).2.filter Call.isDo
        = [Call.Do (postRequest env a
            "\x7b\"header\":\x7b\"tag\":\"svc-a\",\"topics\":null\x7d,\"data\":[\x7b\"value\":\"eyJ4IjoxfQ==\"\x7d]\x7d")]) ∧
    (a.topic = some [] →
      (broadcastCE env a scenarioEvent).2.filter Call.isDo
        = [Call.Do (postRequest env a
            "\x7b\"header\":\x7b\"tag\":\"svc-a\",\"topics\":[]\x7d,\"data\":[\x7b\"value\":\"eyJ4IjoxfQ==\"\x7d]\x7d")]) := by
  have hs := broadcastCE_sends env a scenarioEvent _ (hM _) hN
  constructor
  · intro ht
    have hE : envelope a scenarioEvent
        = { Header := { Tag := "svc-a", Topics := none },
            Data := some [{ Value := scenarioEvent.Data }] } := by
      simp [envelope, ht, Slice.len, scenarioEvent]
    have hj : jsonMarshal { Header := { Tag := "svc-a", Topics := none },
                            Data := some [{ Value := scenarioEvent.Data }] }
        = "\x7b\"header\":\x7b\"tag\":\"svc-a\",\"topics\":null\x7d,\"data\":[\x7b\"value\":\"eyJ4IjoxfQ==\"\x7d]\x7d" := by
      decide
    rw [hs, hE, hj]
  · intro ht
    have hE : envelope a scenarioEvent
        = { Header := { Tag := "svc-a", Topics := some [] },
            Data := some [{ Value := scenarioEvent.Data }] } := by
      simp [envelope, ht, Slice.len, scenarioEvent]
    have hj : jsonMarshal { Header := { Tag := "svc-a", Topics := some [] },
                            Data := some [{ Value := scenarioEvent.Data }] }
        = "\x7b\"header\":\x7b\"tag\":\"svc-a\",\"topics\":[]\x7d,\"data\":[\x7b\"value\":\"eyJ4IjoxfQ==\"\x7d]\x7d" := by
      decide
    rw [hs, hE, hj]

/-- C6, amended, at the scenario with the nil and with the empty topic list. -/
theorem broadcastCE_scenario_body_witness :
    (broadcastCE (nodeAnswers 200) (scenarioAdapter none resultReplier) scenarioEvent).2.filter
        Call.isDo
      = [Call.Do (postRequest (nodeAnswers 200) (scenarioAdapter none resultReplier)
          "\x7b\"header\":\x7b\"tag\":\"svc-a\",\"topics\":null\x7d,\"data\":[\x7b\"value\":\"eyJ4IjoxfQ==\"\x7d]\x7d")] ∧
    (broadcastCE (nodeDown) (scenarioAdapter (some []) resultReplier)
        scenarioEvent).2.filter Call.isDo
      = [Call.Do (postRequest nodeDown (scenarioAdapter (some []) resultReplier)
          "\x7b\"header\":\x7b\"tag\":\"svc-a\",\"topics\":[]\x7d,\"data\":[\x7b\"value\":\"eyJ4IjoxfQ==\"\x7d]\x7d")] :=
  ⟨(broadcastCE_scenario_body (nodeAnswers 200) (scenarioAdapter none resultReplier)
      (fun _ => rfl) rfl).1 rfl,
   (broadcastCE_scenario_body nodeDown (scenarioAdapter (some []) resultReplier)
      (fun _ => rfl) rfl).2 rfl⟩

/-- C8: every call of `http.NewRequest` made by `broadcastCE` has method POST,
as URL text exactly the base URL followed by
`/api/v1/namespaces/default/messages/broadcast`, and as body what
`json.Marshal` returned for the envelope; every request handed to `client.Do`
is the request built by such a call, so its method is POST, its URL is what
`url.Parse` makes of that text, it carries `Accept: application/json` and
`Content-Type: application/json`, and its body is the serialised envelope; and
once the envelope is serialised and the request built, exactly one request is
sent. -/
theorem broadcastCE_request_shape (env : Env) (a : firemeshadapter) (ev : Event) :
    (∀ method url body, Call.NewRequest method url body ∈ (broadcastCE env a ev).2 →
      method = "POST" ∧
      url = a.ff ++ "/api/v1/namespaces/default/messages/broadcast" ∧
      env.Marshal (envelope a ev) = Except.ok body) ∧
    (∀ req, Call.Do req ∈ (broadcastCE env a ev).2 →
      Call.NewRequest "POST" (a.ff ++ "/api/v1/namespaces/default/messages/broadcast")
        req.Body ∈ (broadcastCE env a ev).2 ∧
      req.Method = "POST" ∧
      req.URL = env.ParseURL (a.ff ++ "/api/v1/namespaces/default/messages/broadcast") ∧
      req.Header.Values "Accept" = ["application/json"] ∧
      req.Header.Values "Content-Type" = ["application/json"] ∧
      env.Marshal (envelope a ev) = Except.ok req.Body) ∧
    (∀ b, env.Marshal (envelope a ev) = Except.ok b →
      env.NewRequestErr "POST" (a.ff ++ "/api/v1/namespaces/default/messages/broadcast")
        = none →
      ∃ req, (broadcastCE env a ev).2.filter Call.isDo = [Call.Do req] ∧ req.Body = b) := by
  refine ⟨?_, ?_, ?_⟩
  · intro method url body h
    rcases broadcastCE_cases env a ev with
      ⟨e, _, hb⟩ | ⟨b, e, hM, _, hb⟩ | ⟨b, e, hM, _, _, hb⟩ | ⟨b, res, e, hM, _, _, _, hb⟩ |
      ⟨b, res, hM, _, _, _, hb⟩
    · rw [hb] at h
      simp at h
    all_goals
      rw [hb] at h
      simp at h
      obtain ⟨h1, h2, h3⟩ := h
      subst h1 h2 h3
      exact ⟨rfl, rfl, hM⟩
  · intro req h
    have hmem : Call.NewRequest "POST"
        (a.ff ++ "/api/v1/namespaces/default/messages/broadcast") req.Body
        ∈ (broadcastCE env a ev).2 := by
      rcases broadcastCE_cases env a ev with
        ⟨e, _, hb⟩ | ⟨b, e, _, _, hb⟩ | ⟨b, e, _, _, _, hb⟩ | ⟨b, res, e, _, _, _, _, hb⟩ |
        ⟨b, res, _, _, _, _, hb⟩
      · rw [hb] at h
        simp at h
      · rw [hb] at h
        simp at h
      all_goals
        rw [hb] at h ⊢
        simp at h
        subst h
        simp [postRequest]
    obtain ⟨b, hM, hreq⟩ := broadcastCE_sent_request env a ev req h
    subst hreq
    refine ⟨hmem, rfl, rfl, ?_, ?_, hM⟩
    · show Header.Values [("Accept", ["application/json"]),
        ("Content-Type", ["application/json"])] "Accept" = ["application/json"]
      decide
    · show Header.Values [("Accept", ["application/json"]),
        ("Content-Type", ["application/json"])] "Content-Type" = ["application/json"]
      decide
  · intro b hM hN
    exact ⟨postRequest env a b, broadcastCE_sends env a ev b hM hN, rfl⟩

/-- C8 at the scenario, with the base URL written `HTTP://ff:5000`:
`http.NewRequest` is called with
`HTTP://ff:5000/api/v1/namespaces/default/messages/broadcast`, and the one
POST request sent has the parsed URL
`http://ff:5000/api/v1/namespaces/default/messages/broadcast`. -/
theorem broadcastCE_request_shape_witness :
    (Call.NewRequest "POST" "HTTP://ff:5000/api/v1/namespaces/default/messages/broadcast"
        (jsonMarshal (envelope upperCaseAdapter scenarioEvent))
        ∈ (broadcastCE (nodeAnswers 200) upperCaseAdapter scenarioEvent).2 ∧
      "HTTP://ff:5000/api/v1/namespaces/default/messages/broadcast"
        = upperCaseAdapter.ff ++ "/api/v1/namespaces/default/messages/broadcast") ∧
    (∃ req, Call.Do req ∈ (broadcastCE (nodeAnswers 200) upperCaseAdapter scenarioEvent).2 ∧
      req.Method = "POST" ∧
      req.URL = "http://ff:5000/api/v1/namespaces/default/messages/broadcast") ∧
    (∃ req, (broadcastCE (nodeAnswers 200) upperCaseAdapter scenarioEvent).2.filter Call.isDo
        = [Call.Do req] ∧
      req.Body = jsonMarshal (envelope upperCaseAdapter scenarioEvent)) :=
  ⟨⟨by decide,
    ((broadcastCE_request_shape (nodeAnswers 200) upperCaseAdapter scenarioEvent).1
      "POST" "HTTP://ff:5000/api/v1/namespaces/default/messages/broadcast"
      (jsonMarshal (envelope upperCaseAdapter scenarioEvent)) (by decide)).2.1⟩,
   ⟨postRequest (nodeAnswers 200) upperCaseAdapter
      (jsonMarshal (envelope upperCaseAdapter scenarioEvent)),
    by decide,
    ((broadcastCE_request_shape (nodeAnswers 200) upperCaseAdapter scenarioEvent).2.1
      (postRequest (nodeAnswers 200) upperCaseAdapter
        (jsonMarshal (envelope upperCaseAdapter scenarioEvent)))
      (by decide)).2.1,
    (((broadcastCE_request_shape (nodeAnswers 200) upperCaseAdapter scenarioEvent).2.1
      (postRequest (nodeAnswers 200) upperCaseAdapter
        (jsonMarshal (envelope upperCaseAdapter scenarioEvent)))
      (by decide)).2.2.1).trans (by decide)⟩,
   (broadcastCE_request_shape (nodeAnswers 200) upperCaseAdapter scenarioEvent).2.2
      _ rfl rfl⟩

/-! ## Failures -/

/-- C9: when `json.Marshal` fails on the envelope with `e`, `broadcastCE`
returns `e` having neither built nor sent a request, and `dispatch` returns the
replier's error reply for `ErrorCodeAdapterProcess`, `e` and "failed to
broadcast event", the reply a failed send gets as well; and the body of any
request that is sent is the text `json.Marshal` returned for the envelope. -/
theorem broadcastCE_marshal_failure (env : Env) (a : firemeshadapter) (ev : Event) :
    (∀ e, env.Marshal (envelope a ev) = Except.error e →
      (broadcastCE env a ev).1 = some e ∧
      (∀ c ∈ (broadcastCE env a ev).2, c.isNewRequest = false ∧ c.isDo = false) ∧
      (dispatch env a ev).1
        = a.replier.Error ev env.ErrorCodeAdapterProcess e "failed to broadcast event") ∧
    (∀ b e, env.Marshal (envelope a ev) = Except.ok b →
      env.NewRequestErr "POST" (a.ff ++ "/api/v1/namespaces/default/messages/broadcast")
        = none →
      env.Do (postRequest env a b) = Except.error e →
      (dispatch env a ev).1
        = a.replier.Error ev env.ErrorCodeAdapterProcess e "failed to broadcast event") ∧
    (∀ req, Call.Do req ∈ (broadcastCE env a ev).2 →
      env.Marshal (envelope a ev) = Except.ok req.Body) := by
  refine ⟨?_, ?_, ?_⟩
  · intro e hM
    have hb := broadcastCE_marshal_error env a ev e hM
    have hd := dispatch_of_error env a ev e _ hb
    rw [hb, hd]
    simp [Call.isNewRequest, Call.isDo]
  · intro b e hM hN hD
    have hb := broadcastCE_send_error env a ev b e hM hN hD
    rw [dispatch_of_error env a ev e _ hb]
  · intro req h
    obtain ⟨b, hM, hreq⟩ := broadcastCE_sent_request env a ev req h
    subst hreq
    exact hM

/-- C9 at three inputs: a failing serialiser (only the `json.Marshal` call is
made), a refused connection, and a request that was sent. -/
theorem broadcastCE_marshal_failure_witness :
    (broadcastCE marshalFails (scenarioAdapter none resultReplier) scenarioEvent
      = (some { msg := "unsupported value" },
          [Call.Marshal (envelope (scenarioAdapter none resultReplier) scenarioEvent)]) ∧
      (dispatch marshalFails (scenarioAdapter none resultReplier) scenarioEvent).1
        = (none, Result.Other { msg := "unsupported value" })) ∧
    (dispatch nodeDown (scenarioAdapter none resultReplier) scenarioEvent).1
      = (none, Result.Other { msg := "connection refused" }) ∧
    (nodeAnswers 200).Marshal (envelope (scenarioAdapter none resultReplier) scenarioEvent)
      = Except.ok "\x7b\"header\":\x7b\"tag\":\"svc-a\",\"topics\":null\x7d,\"data\":[\x7b\"value\":\"eyJ4IjoxfQ==\"\x7d]\x7d" :=
  ⟨⟨by decide,
    ((broadcastCE_marshal_failure marshalFails (scenarioAdapter none resultReplier)
      scenarioEvent).1 { msg := "unsupported value" } rfl).2.2⟩,
   (broadcastCE_marshal_failure nodeDown (scenarioAdapter none resultReplier)
      scenarioEvent).2.1 _ { msg := "connection refused" } rfl rfl rfl,
   (broadcastCE_marshal_failure (nodeAnswers 200) (scenarioAdapter none resultReplier)
      scenarioEvent).2.2
      (postRequest (nodeAnswers 200) (scenarioAdapter none resultReplier)
        "\x7b\"header\":\x7b\"tag\":\"svc-a\",\"topics\":null\x7d,\"data\":[\x7b\"value\":\"eyJ4IjoxfQ==\"\x7d]\x7d")
      (by decide)⟩

/-- C10: whatever the status code and the body of a response whose body is
read to the end, `broadcastCE` returns no error and `dispatch` returns the
inbound event with ACK; and `broadcastCE` returns an error exactly when
serialising, building the request, sending it or reading the response body
fails. -/
theorem dispatch_ignores_response (env : Env) (a : firemeshadapter) (ev : Event) :
    (∀ b res, env.Marshal (envelope a ev) = Except.ok b →
      env.NewRequestErr "POST" (a.ff ++ "/api/v1/namespaces/default/messages/broadcast")
        = none →
      env.Do (postRequest env a b) = Except.ok res →
      res.BodyErr = none →
      (broadcastCE env a ev).1 = none ∧
      (dispatch env a ev).1 = (some ev, Result.ResultACK)) ∧
    ((broadcastCE env a ev).1 ≠ none ↔
      ((∃ e, env.Marshal (envelope a ev) = Except.error e) ∨
       (∃ b e, env.Marshal (envelope a ev) = Except.ok b ∧
          env.NewRequestErr "POST" (a.ff ++ "/api/v1/namespaces/default/messages/broadcast")
            = some e) ∨
       (∃ b e, env.Marshal (envelope a ev) = Except.ok b ∧
          env.NewRequestErr "POST" (a.ff ++ "/api/v1/namespaces/default/messages/broadcast")
            = none ∧
          env.Do (postRequest env a b) = Except.error e) ∨
       (∃ b res e, env.Marshal (envelope a ev) = Except.ok b ∧
          env.NewRequestErr "POST" (a.ff ++ "/api/v1/namespaces/default/messages/broadcast")
            = none ∧
          env.Do (postRequest env a b) = Except.ok res ∧ res.BodyErr = some e))) := by
  constructor
  · intro b res hM hN hD hR
    have hb := broadcastCE_delivered env a ev b res hM hN hD hR
    rw [dispatch_of_nil env a ev _ hb, hb]
    exact ⟨rfl, rfl⟩
  · constructor
    · intro hne
      rcases broadcastCE_cases env a ev with
        ⟨e, hM, _⟩ | ⟨b, e, hM, hN, _⟩ | ⟨b, e, hM, hN, hD, _⟩ |
        ⟨b, res, e, hM, hN, hD, hR, _⟩ | ⟨b, res, _, _, _, _, hb⟩
      · exact Or.inl ⟨e, hM⟩
      · exact Or.inr (Or.inl ⟨b, e, hM, hN⟩)
      · exact Or.inr (Or.inr (Or.inl ⟨b, e, hM, hN, hD⟩))
      · exact Or.inr (Or.inr (Or.inr ⟨b, res, e, hM, hN, hD, hR⟩))
      · rw [hb] at hne
        exact absurd rfl hne
    · intro h
      rcases h with ⟨e, hM⟩ | ⟨b, e, hM, hN⟩ | ⟨b, e, hM, hN, hD⟩ | ⟨b, res, e, hM, hN, hD, hR⟩
      · rw [broadcastCE_marshal_error env a ev e hM]
        simp
      · rw [broadcastCE_request_error env a ev b e hM hN]
        simp
      · rw [broadcastCE_send_error env a ev b e hM hN hD]
        simp
      · rw [broadcastCE_read_error env a ev b res e hM hN hD hR]
        simp

/-- C10 at the scenario: a node answering 500 still gives ACK, and a body
that breaks off gives an error. -/
theorem dispatch_ignores_response_witness :
    (dispatch (nodeAnswers 500) (scenarioAdapter none resultReplier) scenarioEvent).1
      = (some scenarioEvent, Result.ResultACK) ∧
    (broadcastCE bodyBreaks (scenarioAdapter none resultReplier) scenarioEvent).1 ≠ none :=
  ⟨((dispatch_ignores_response (nodeAnswers 500) (scenarioAdapter none resultReplier)
      scenarioEvent).1 _ { StatusCode := 500, Body := [123, 125], BodyErr := none }
      rfl rfl rfl rfl).2,
   (dispatch_ignores_response bodyBreaks (scenarioAdapter none resultReplier)
      scenarioEvent).2.2
      (Or.inr (Or.inr (Or.inr ⟨_, Response.mk 200 [123] (some (GoError.mk "unexpected EOF")),
        GoError.mk "unexpected EOF", rfl, rfl, rfl, rfl⟩)))⟩

end firemesh
